import Mathlib

/-!
Verification of `Package.py`, a script that downloads a Maven or NPM module
from a public GitHub repository, preferring a pre-built release asset and
falling back to building from source.

The embedding below follows the Python source function by function.  External
effects (HTTP responses, the extracted directory tree, subprocess exit codes,
directory listings) are passed in explicitly; Python exceptions become the
`Err` sum type and functions that may raise return `Except Err _`.

Python string primitives (`str.split`, `str.replace`, `in`, `str.endswith`,
`str.lower`, `str.strip`) are modelled by executable functions on `List Char`
so that every definition evaluates by kernel reduction on concrete inputs.
-/

/-- Python exceptions the script can raise, one constructor per exception
class (with the message where the script sets one). -/
inductive Err where
  /-- `ValueError`, raised by `parse_github_url`. -/
  | valueError (msg : String)
  /-- `requests.HTTPError`, raised by `Response.raise_for_status` on a
  status code ≥ 400. -/
  | httpError (code : Nat)
  /-- `IndexError`, raised by `os.listdir(extract_path)[0]` on an empty
  listing. -/
  | indexError
  /-- `FileNotFoundError`, raised by `find_module_path`,
  `package_maven_module` and `package_npm_module`. -/
  | fileNotFoundError (msg : String)
  /-- `subprocess.CalledProcessError`, raised by `subprocess.run(...,
  check=True)` on a non-zero exit code; the field records the command. -/
  | calledProcessError (cmd : String)
  /-- `xml.etree.ElementTree.ParseError`, raised by `ET.parse` on a
  malformed document. -/
  | xmlParseError
  /-- `json.JSONDecodeError`, raised by `json.load` on a malformed
  document. -/
  | jsonDecodeError
  deriving DecidableEq, Repr

/-- If `p` is a prefix of `l`, return the remainder of `l` after `p`. -/
def stripPre : List Char → List Char → Option (List Char)
  | [], l => some l
  | _ :: _, [] => none
  | p :: ps, c :: cs => if p == c then stripPre ps cs else none

/-- Worker for `splitOnL`, structurally recursive on a fuel bound on the
number of characters still to be consumed. -/
def splitOnFuel (sep : List Char) : Nat → List Char → List Char → List (List Char)
  | 0, l, acc => [acc.reverse ++ l]
  | _ + 1, [], acc => [acc.reverse]
  | fuel + 1, c :: cs, acc =>
      match stripPre sep (c :: cs) with
      | some rest => acc.reverse :: splitOnFuel sep fuel rest []
      | none => splitOnFuel sep fuel cs (c :: acc)

/-- Python `str.split(sep)` for a non-empty separator: left-to-right,
non-overlapping occurrences of `sep` cut the list. `l.length` characters is
enough fuel because every step consumes at least one character. -/
def splitOnL (sep l : List Char) : List (List Char) :=
  splitOnFuel sep l.length l []

/-- Worker for `replaceL`, structurally recursive on a fuel bound. -/
def replaceFuel (pat repl : List Char) : Nat → List Char → List Char
  | 0, l => l
  | _ + 1, [] => []
  | fuel + 1, c :: cs =>
      match stripPre pat (c :: cs) with
      | some rest => repl ++ replaceFuel pat repl fuel rest
      | none => c :: replaceFuel pat repl fuel cs

/-- Python `str.replace(pat, repl)` for a non-empty pattern: replace each
left-to-right, non-overlapping occurrence of `pat` by `repl`. -/
def replaceL (pat repl l : List Char) : List Char :=
  replaceFuel pat repl l.length l

/-- Python's substring test `needle in hay`. -/
def containsL : List Char → List Char → Bool
  | [], needle => needle.isEmpty
  | c :: cs, needle => (stripPre needle (c :: cs)).isSome || containsL cs needle

/-- Python `str.endswith`: `pat` is a suffix of `l`. -/
def isSuffixL (pat l : List Char) : Bool :=
  (stripPre pat.reverse l.reverse).isSome

/-- Python `str.lower` (the inputs in scope are ASCII). -/
def strToLower (s : String) : String :=
  String.mk (s.data.map Char.toLower)

/-- Python `needle in hay` at `String` type. -/
def strContains (hay needle : String) : Bool :=
  containsL hay.data needle.data

/-- Python `s.endswith(suf)` at `String` type. -/
def strEndsWith (s suf : String) : Bool :=
  isSuffixL suf.data s.data

/-- Python `s.strip("/")`: remove leading and trailing `/` characters. -/
def stripSlashes (s : String) : String :=
  String.mk (((s.data.dropWhile (· == '/')).reverse.dropWhile (· == '/')).reverse)

/-- Python `os.path.join` for the relative second components the script
produces. -/
def pjoin (a b : String) : String :=
  a ++ "/" ++ b

/-- The `path` component of `urllib.parse.urlparse`, for URLs of the shape
`scheme://netloc/path` without query or fragment (the shapes the script
receives).  Without a `://` the whole string is the path; otherwise the
path is everything from the first `/` after the authority. -/
def urlPath (url : String) : String :=
  match splitOnL "://".data url.data with
  | [] => url
  | [_] => url
  | _ :: rest =>
      match splitOnL ['/'] (List.intercalate "://".data rest) with
      | [] => ""
      | [_] => ""
      | _ :: segs => String.mk ('/' :: List.intercalate ['/'] segs)

/-- The URL-path segments `parse_github_url` works on:
`urlparse(github_url).path.strip("/").split("/")`. -/
def urlSegments (github_url : String) : List String :=
  (splitOnL ['/'] (stripSlashes (urlPath github_url)).data).map String.mk

/-- `parse_github_url` (Package.py lines 24-29): split the URL path on `/`,
require at least two segments, and return
`(path_parts[0], path_parts[1].replace(".git", ""))`.
Python's `str.replace` removes every occurrence of `".git"`, which
`replaceL` mirrors. -/
def parse_github_url (github_url : String) : Except Err (String × String) :=
  let path_parts := urlSegments github_url
  if path_parts.length < 2 then
    .error (.valueError "Invalid GitHub URL")
  else
    .ok (path_parts.getD 0 "",
         String.mk (replaceL ".git".data [] (path_parts.getD 1 "").data))

/-- A release asset as returned by the GitHub API: file name and direct
download URL. -/
structure Asset where
  name : String
  browser_download_url : String
  deriving DecidableEq, Repr

/-- The response to the release query in `get_release_asset`: HTTP status
code and, when the body is consulted, the `assets` list. -/
structure ReleaseResponse where
  status_code : Nat
  assets : List Asset
  deriving DecidableEq, Repr

/-- `name.endswith((".jar", ".tgz", ".zip", ".tar.gz"))` from
`get_release_asset` (line 50); applied to the lowercased name. -/
def hasAllowedExt (name : String) : Bool :=
  strEndsWith name ".jar" || strEndsWith name ".tgz" ||
  strEndsWith name ".zip" || strEndsWith name ".tar.gz"

/-- The asset loop of `get_release_asset` (lines 46-53): skip an asset when
a non-empty module name is given and is not a substring of the lowercased
asset name; return the first remaining asset with an accepted extension.
The Python `if module_name` truthiness test is `module_name ≠ ""` here
(the `__main__` caller always passes a string). -/
def scan_assets (module_name : String) : List Asset → Option String
  | [] => none
  | a :: rest =>
      let name := strToLower a.name
      if module_name ≠ "" && !(strContains name (strToLower module_name)) then
        scan_assets module_name rest
      else if hasAllowedExt name then
        some a.browser_download_url
      else
        scan_assets module_name rest

/-- `get_release_asset` (lines 32-53) given the API's response: on a status
other than 200 return `None` ("no release found"); otherwise scan the
assets. -/
def get_release_asset (resp : ReleaseResponse) (module_name : String) : Option String :=
  if resp.status_code ≠ 200 then none
  else scan_assets module_name resp.assets

/-- A directory tree, as extracted from the source archive: directory name
and subdirectories in listing order (files are irrelevant to the script's
directory search). -/
inductive DirTree where
  | node (nm : String) (children : List DirTree)
  deriving Repr

/-- The directory's own name. -/
def DirTree.nm : DirTree → String
  | .node n _ => n

mutual

/-- `os.walk(root)` restricted to the components the script reads: the
top-down sequence of `(dirpath, dirnames)` pairs, root first, then each
subdirectory in listing order. -/
def walk (p : String) : DirTree → List (String × List String)
  | .node _ cs => (p, cs.map DirTree.nm) :: walkList p cs

/-- `os.walk` over a list of sibling subdirectories of `p`, in order. -/
def walkList (p : String) : List DirTree → List (String × List String)
  | [] => []
  | c :: cs => walk (pjoin p c.nm) c ++ walkList p cs

end

/-- `find_module_path` (lines 92-97): scan `os.walk` top-down and return
`os.path.join(dirpath, module_name)` for the first visited directory whose
`dirnames` contains `module_name`; raise `FileNotFoundError` when none
does. -/
def find_module_path (root_path module_name : String) (t : DirTree) : Except Err String :=
  match (walk root_path t).find? (fun e => e.2.contains module_name) with
  | some e => .ok (pjoin e.1 module_name)
  | none => .error (.fileNotFoundError ("Module " ++ module_name ++ " not found in repo"))

mutual

/-- Independent of `walk`: some directory strictly inside `t` (any depth)
is named `m`. -/
def hasDirNamed (m : String) : DirTree → Bool
  | .node _ cs => hasDirNamedL m cs

/-- `hasDirNamed` over a list of subtrees: one of them is named `m` or
contains a directory named `m`. -/
def hasDirNamedL (m : String) : List DirTree → Bool
  | [] => false
  | c :: cs => c.nm == m || hasDirNamed m c || hasDirNamedL m cs

end

/-- The contents of the source zipball request and of the extraction
directory, the externals `download_source` (lines 68-89) consumes: the HTTP
status of the archive download and `os.listdir(extract_path)` after
extraction. -/
structure ArchiveFetch where
  status_code : Nat
  entries : List String
  deriving DecidableEq, Repr

/-- The scratch directory `tempfile.mkdtemp()` hands the script; the
extraction directory is `os.path.join(tmp_dir, "src")`. -/
def tmpDir : String := "/tmp/scratch"

/-- `download_source` (lines 68-89): `raise_for_status` on the archive
response (an `HTTPError` when the status is ≥ 400), then extract and
return `os.path.join(extract_path, os.listdir(extract_path)[0])` — an
`IndexError` when the listing is empty. -/
def download_source (w : ArchiveFetch) : Except Err String :=
  if 400 ≤ w.status_code then .error (.httpError w.status_code)
  else
    match w.entries with
    | [] => .error .indexError
    | e :: _ => .ok (pjoin (pjoin tmpDir "src") e)

/-- A parsed-or-not `pom.xml`, as `ET.parse` + `root.find("mvn:version")`
see it: `malformed` makes `ET.parse` raise; otherwise the optional
top-level `<version>` element carries an optional text (Python
`Element.text` is `None` for an empty element). -/
inductive MavenPom where
  | malformed
  | wellFormed (versionTag : Option (Option String))
  deriving DecidableEq, Repr

/-- A parsed-or-not `package.json`, as `json.load` + `.get("version")` see
it. -/
inductive NpmPkg where
  | malformed
  | obj (version : Option String)
  deriving DecidableEq, Repr

/-- The descriptor files of one module directory: `none` means the file
does not exist. -/
structure ModuleDirDesc where
  pom : Option MavenPom
  pkg : Option NpmPkg
  deriving DecidableEq, Repr

/-- `detect_project_type` (lines 100-106): `"maven"` when `pom.xml`
exists, else `"npm"` when `package.json` exists, else `"unknown"`. -/
def detect_project_type (d : ModuleDirDesc) : String :=
  if d.pom.isSome then "maven"
  else if d.pkg.isSome then "npm"
  else "unknown"

/-- `get_version` (lines 109-123).  Maven: `ET.parse` raises on a missing
or malformed file; otherwise return `version_tag.text` when the top-level
`<version>` element exists (its text may be Python `None`, hence the
`Option String` payload) and `"unknown"` when it does not.  Npm:
`json.load` raises on a missing or malformed file; otherwise
`pkg_json.get("version", "unknown")`.  Any other project type:
`"unknown"`. -/
def get_version (d : ModuleDirDesc) (proj_type : String) : Except Err (Option String) :=
  if proj_type = "maven" then
    match d.pom with
    | none => .error (.fileNotFoundError "pom.xml")
    | some .malformed => .error .xmlParseError
    | some (.wellFormed vt) =>
        match vt with
        | some txt => .ok txt
        | none => .ok (some "unknown")
  else if proj_type = "npm" then
    match d.pkg with
    | none => .error (.fileNotFoundError "package.json")
    | some .malformed => .error .jsonDecodeError
    | some (.obj v) => .ok (some (v.getD "unknown"))
  else .ok (some "unknown")

/-- The externals of one module's build: the exit codes of the build-tool
invocations and the directory listings the packaging steps read
(`os.listdir(module_target)` for Maven, `os.listdir(module_dir)` after
`npm pack` for NPM). -/
structure BuildEnv where
  mvnExit : Nat
  targetListing : List String
  npmInstallExit : Nat
  npmPackExit : Nat
  moduleListing : List String
  deriving DecidableEq, Repr

/-- `package_maven_module` (lines 126-144): `subprocess.run(["mvn", ...],
check=True)` raises `CalledProcessError` on a non-zero exit; then the
first `.jar` in the module's `target` listing is copied to the working
directory, and `FileNotFoundError` is raised when there is none. -/
def package_maven_module (env : BuildEnv) (module_path cwd : String) : Except Err String :=
  if env.mvnExit ≠ 0 then .error (.calledProcessError "mvn")
  else
    match env.targetListing.filter (fun f => strEndsWith f ".jar") with
    | [] => .error (.fileNotFoundError ("No JAR produced for module " ++ module_path))
    | j :: _ => .ok (pjoin cwd j)

/-- `package_npm_module` (lines 147-159): `npm install` then `npm pack`,
each raising `CalledProcessError` on a non-zero exit; then the first
`.tgz` in the module directory listing is copied to the working directory,
and `FileNotFoundError` is raised when there is none. -/
def package_npm_module (env : BuildEnv) (cwd : String) : Except Err String :=
  if env.npmInstallExit ≠ 0 then .error (.calledProcessError "npm install")
  else if env.npmPackExit ≠ 0 then .error (.calledProcessError "npm pack")
  else
    match env.moduleListing.filter (fun f => strEndsWith f ".tgz") with
    | [] => .error (.fileNotFoundError "No .tgz produced in npm pack")
    | f :: _ => .ok (pjoin cwd f)

/-- `url.split("/")[-1]`, the file name `download_file` saves under. -/
def lastSeg (url : String) : String :=
  String.mk ((splitOnL ['/'] url.data).getLastD [])

/-- `download_file` (lines 56-65) given the response status for the URL:
`raise_for_status` (an `HTTPError` when the status is ≥ 400), else the
file is saved as `os.path.join(output_dir, url.split("/")[-1])`. -/
def download_file (asset_status : Nat) (url output_dir : String) : Except Err String :=
  if 400 ≤ asset_status then .error (.httpError asset_status)
  else .ok (pjoin output_dir (lastSeg url))

/-- `os.path.relpath(path, start)` for the one way the script uses it:
`path` lies strictly under `start` (it is `find_module_path`'s result,
built by joining below the root). -/
def relpath (path start : String) : String :=
  match stripPre (start ++ "/").data path.data with
  | some rest => String.mk rest
  | none => path

/-- The external world one run of the script observes: the release-query
response, the HTTP status served for an asset download, the source-archive
download and extraction, the extracted directory tree, and per module path
the descriptor files and build externals. -/
structure World where
  release : ReleaseResponse
  asset_status : Nat
  source : ArchiveFetch
  tree : DirTree
  descOf : String → ModuleDirDesc
  buildOf : String → BuildEnv

/-- What one iteration of the `__main__` module loop produces when it does
not raise. -/
inductive Outcome where
  /-- Fast path: the release asset was downloaded to this file. -/
  | downloaded (file : String)
  /-- Slow path: the module was built and the artifact copied here. -/
  | built (artifact : String)
  /-- Slow path: neither `pom.xml` nor `package.json`; the script prints a
  message and moves on. -/
  | unknownType (module_path : String)
  deriving DecidableEq, Repr

/-- The slow path of the module loop (lines 183-195): download and extract
the source, locate the module directory, detect its type, resolve the
version (`version or get_version(...)` — `get_version` runs, and can
raise, only when no explicit version was given), then dispatch on the
type. -/
def slow_path (w : World) (version : Option String) (cwd module_name : String) :
    Except Err Outcome := do
  let root_path ← download_source w.source
  let module_path ← find_module_path root_path module_name w.tree
  let d := w.descOf module_path
  let proj_type := detect_project_type d
  let _detected_version ← match version with
    | some v => Except.ok (some v)
    | none => get_version d proj_type
  if proj_type = "maven" then
    (package_maven_module (w.buildOf module_path) (relpath module_path root_path) cwd).map .built
  else if proj_type = "npm" then
    (package_npm_module (w.buildOf module_path) cwd).map .built
  else
    pure (.unknownType module_path)

/-- One iteration of the `__main__` module loop (lines 173-195): try the
release fast path; a found asset is downloaded into the working directory,
otherwise fall back to the slow path. -/
def process_module (w : World) (version : Option String) (cwd module_name : String) :
    Except Err Outcome :=
  match get_release_asset w.release module_name with
  | some asset_url => (download_file w.asset_status asset_url cwd).map .downloaded
  | none => slow_path w version cwd module_name

/-- The `for module_name in module_names` loop (lines 173-195).  The body
has no exception handler, so an exception from one iteration propagates
and ends the loop; this is modelled by the `Except` bind. -/
def processList (w : World) (version : Option String) (cwd : String) :
    List String → Except Err (List Outcome)
  | [] => .ok []
  | m :: ms => do
      let o ← process_module w version cwd m
      let os ← processList w version cwd ms
      pure (o :: os)

/-- `sys.argv[2].split(",")` (line 168). -/
def split_module_names (s : String) : List String :=
  (splitOnL [','] s.data).map String.mk

/-- How a run of `__main__` can end without raising. -/
inductive MainResult where
  /-- Fewer than two CLI arguments: usage message and `sys.exit(1)`. -/
  | usageExit
  /-- The loop ran to completion over all requested modules. -/
  | finished (outcomes : List Outcome)
  deriving DecidableEq, Repr

/-- `__main__` (lines 162-195): usage check on `sys.argv` (which includes
the program name), URL parse, then the module loop.  `version` is
`sys.argv[3]` when present. -/
def mainModel (w : World) (cwd : String) (args : List String) : Except Err MainResult :=
  if args.length < 3 then .ok .usageExit
  else do
    let github_url := args.getD 1 ""
    let module_names := split_module_names (args.getD 2 "")
    let version := if args.length ≥ 4 then some (args.getD 3 "") else none
    let _owner_repo ← parse_github_url github_url
    let outs ← processList w version cwd module_names
    pure (.finished outs)

/-- A directory tree for concrete runs: an extracted archive root with two
subdirectories, one of which has a nested subdirectory. -/
def demoTree : DirTree :=
  .node "acme-widgets-0abc" [.node "docs" [], .node "core" [.node "src" []]]

/-- A concrete world for counterexamples and witnesses: the release query
comes back 404, the source archive extracts to one root directory whose
tree contains a single Maven module directory `good`, and the build
succeeds producing `good-1.0.0.jar`. -/
def w1 : World where
  release := ⟨404, []⟩
  asset_status := 200
  source := ⟨200, ["acme-widgets-0abc"]⟩
  tree := .node "acme-widgets-0abc" [.node "good" []]
  descOf := fun _ => ⟨some (.wellFormed (some (some "1.0.0"))), none⟩
  buildOf := fun _ => ⟨0, ["good-1.0.0.jar"], 0, 0, []⟩

theorem hasDirNamedL_eq (m : String) (cs : List DirTree) :
    hasDirNamedL m cs = ((cs.map DirTree.nm).contains m || cs.any fun c => hasDirNamed m c) := by
  induction cs with
  | nil => rfl
  | cons c cs ih =>
      simp only [hasDirNamedL, ih, List.map_cons, List.any_cons, List.contains_cons]
      have hcomm : (m == c.nm) = (c.nm == m) := by
        by_cases h : c.nm = m <;> simp [beq_iff_eq, eq_comm, h]
      rw [hcomm]
      cases (c.nm == m) <;> cases hasDirNamed m c <;>
        cases (cs.map DirTree.nm).contains m <;> simp

mutual

theorem walk_any (m p : String) (t : DirTree) :
    ((walk p t).any fun e => e.2.contains m) = hasDirNamed m t := by
  match t with
  | .node n cs =>
      simp only [walk, List.any_cons, hasDirNamed]
      rw [walkList_any, hasDirNamedL_eq]

theorem walkList_any (m p : String) (cs : List DirTree) :
    ((walkList p cs).any fun e => e.2.contains m) = cs.any (fun c => hasDirNamed m c) := by
  match cs with
  | [] => rfl
  | c :: cs' =>
      simp only [walkList, List.any_append, List.any_cons]
      rw [walk_any, walkList_any]

end

theorem scan_assets_eq_find (m : String) (hm : m ≠ "") :
    ∀ assets : List Asset, scan_assets m assets =
      (assets.find? fun a =>
        strContains (strToLower a.name) (strToLower m) && hasAllowedExt (strToLower a.name)).map
        (fun a => a.browser_download_url)
  | [] => rfl
  | a :: rest => by
      have ih := scan_assets_eq_find m hm rest
      by_cases h1 : strContains (strToLower a.name) (strToLower m) = true
      · by_cases h2 : hasAllowedExt (strToLower a.name) = true
        · simp [scan_assets, List.find?_cons, h1, h2, hm]
        · simp [scan_assets, List.find?_cons, h1, h2, hm, ih]
      · simp [scan_assets, List.find?_cons, h1, hm, ih]

theorem scan_assets_empty_eq_find :
    ∀ assets : List Asset, scan_assets "" assets =
      (assets.find? fun a => hasAllowedExt (strToLower a.name)).map
        (fun a => a.browser_download_url)
  | [] => rfl
  | a :: rest => by
      by_cases h2 : hasAllowedExt (strToLower a.name) = true
      · simp [scan_assets, List.find?_cons, h2]
      · simp [scan_assets, List.find?_cons, h2, scan_assets_empty_eq_find rest]

/-- Counterexample to claim C2: on
`https://host/owner/repo/tree/<branch>/<a>/<b>` the Repository Locator
returns exactly what it returns for the plain `https://host/owner/repo`
URL — a bare (owner, repo) pair; the branch, the subpath and any default
module name are nowhere in its result, and when the caller supplies no
module-name argument the program prints usage and exits instead of
defaulting to the trailing segment. -/
theorem tree_url_yields_plain_owner_repo :
    parse_github_url "https://github.com/acme/widgets/tree/main/libs/core" =
      .ok ("acme", "widgets") ∧
    parse_github_url "https://github.com/acme/widgets/tree/main/libs/core" =
      parse_github_url "https://github.com/acme/widgets" ∧
    mainModel w1 "/cwd" ["Package.py", "https://github.com/acme/widgets/tree/main/libs/core"] =
      .ok .usageExit :=
  ⟨rfl, rfl, rfl⟩

/-- Claim C2 (amended): for every URL whose path splits into segments
`[owner, repo, "tree", branch, a, b]`, the Repository Locator returns only
`(owner, repo)` (with every `".git"` occurrence removed from `repo`); the
branch and subpath segments are discarded. -/
theorem tree_url_parses_to_owner_repo_only (u owner repo branch a b : String)
    (h : urlSegments u = [owner, repo, "tree", branch, a, b]) :
    parse_github_url u = .ok (owner, String.mk (replaceL ".git".data [] repo.data)) := by
  simp [parse_github_url, h]

/-- Witness for `tree_url_parses_to_owner_repo_only` at a concrete
tree-URL. -/
theorem tree_url_parses_to_owner_repo_only_witness :
    urlSegments "https://github.com/acme/widgets/tree/main/libs/core" =
      ["acme", "widgets", "tree", "main", "libs", "core"] ∧
    parse_github_url "https://github.com/acme/widgets/tree/main/libs/core" =
      .ok ("acme", "widgets") :=
  ⟨rfl, tree_url_parses_to_owner_repo_only _ "acme" "widgets" "main" "libs" "core" rfl⟩

/-- Claim C9: the repository name is the second URL-path segment with
every left-to-right occurrence of `".git"` removed (Python
`str.replace`), not only a trailing suffix; concretely a repository
named `my.gitlib` is renamed to `mylib`. -/
theorem repo_name_git_removed_everywhere (u owner repo : String) (rest : List String)
    (h : urlSegments u = owner :: repo :: rest) :
    parse_github_url u = .ok (owner, String.mk (replaceL ".git".data [] repo.data)) ∧
    parse_github_url "https://github.com/acme/my.gitlib" = .ok ("acme", "mylib") := by
  constructor
  · have hlen : ¬ (urlSegments u).length < 2 := by rw [h]; simp
    simp [parse_github_url, h, hlen]
  · rfl

/-- Witness for `repo_name_git_removed_everywhere` at a concrete URL whose
repository segment contains `".git"` in the middle. -/
theorem repo_name_git_removed_everywhere_witness :
    urlSegments "https://github.com/acme/my.gitlib" = ["acme", "my.gitlib"] ∧
    parse_github_url "https://github.com/acme/my.gitlib" = .ok ("acme", "mylib") :=
  ⟨rfl, (repo_name_git_removed_everywhere "https://github.com/acme/my.gitlib"
      "acme" "my.gitlib" [] rfl).1⟩

/-- Counterexample to claim C3: the Version Resolver does raise — on a
malformed `pom.xml`, `ET.parse` raises `ParseError`, and on a malformed
`package.json`, `json.load` raises `JSONDecodeError`; neither case
returns `"unknown"`. -/
theorem version_resolver_raises_on_malformed :
    get_version ⟨some .malformed, none⟩ "maven" = .error .xmlParseError ∧
    get_version ⟨none, some .malformed⟩ "npm" = .error .jsonDecodeError :=
  ⟨rfl, rfl⟩

/-- Claim C3 (amended): when the relevant descriptor exists and parses, the
Version Resolver returns the declared top-level version when present
(the Maven version element's text) and `"unknown"` when the field is
absent; a descriptor that fails to parse raises a parse error instead of
producing `"unknown"`. -/
theorem get_version_wellformed_behavior (v : String) (pm : Option MavenPom) (pk : Option NpmPkg) :
    get_version ⟨some (.wellFormed (some (some v))), pk⟩ "maven" = .ok (some v) ∧
    get_version ⟨some (.wellFormed none), pk⟩ "maven" = .ok (some "unknown") ∧
    get_version ⟨some .malformed, pk⟩ "maven" = .error .xmlParseError ∧
    get_version ⟨pm, some (.obj (some v))⟩ "npm" = .ok (some v) ∧
    get_version ⟨pm, some (.obj none)⟩ "npm" = .ok (some "unknown") ∧
    get_version ⟨pm, some .malformed⟩ "npm" = .error .jsonDecodeError ∧
    get_version ⟨pm, pk⟩ "unknown" = .ok (some "unknown") :=
  ⟨rfl, rfl, rfl, rfl, rfl, rfl, rfl⟩

/-- Claim C4: with a successful release query and a non-empty module name,
the Release Asset Resolver returns the download URL of the first asset
(in API order) whose lowercased name contains the lowercased module name
and ends with one of `.jar`, `.tgz`, `.zip`, `.tar.gz`; every selected
asset satisfies both conditions (so a name outside the extension list is
never selected), and the result is `none` when no asset qualifies. -/
theorem release_asset_selection (m : String) (assets : List Asset) (hm : m ≠ "") :
    get_release_asset ⟨200, assets⟩ m =
      (assets.find? fun a =>
        strContains (strToLower a.name) (strToLower m) && hasAllowedExt (strToLower a.name)).map
        (fun a => a.browser_download_url) ∧
    (∀ u, get_release_asset ⟨200, assets⟩ m = some u →
      ∃ a ∈ assets, u = a.browser_download_url ∧
        strContains (strToLower a.name) (strToLower m) = true ∧
        hasAllowedExt (strToLower a.name) = true) := by
  have h1 : get_release_asset ⟨200, assets⟩ m = scan_assets m assets := by
    simp [get_release_asset]
  rw [h1, scan_assets_eq_find m hm assets]
  refine ⟨rfl, ?_⟩
  intro u hu
  rw [Option.map_eq_some'] at hu
  obtain ⟨a, ha, hau⟩ := hu
  have hp := List.find?_some ha
  have hmem := List.mem_of_find?_eq_some ha
  rw [Bool.and_eq_true] at hp
  exact ⟨a, hmem, hau.symm, hp.1, hp.2⟩

/-- Witness for `release_asset_selection`: `foo-module.exe` is skipped for
its extension and `module-1.0.tgz` is selected. -/
theorem release_asset_selection_witness :
    "module" ≠ "" ∧
    get_release_asset ⟨200, [⟨"foo-module.exe", "u1"⟩, ⟨"module-1.0.tgz", "u2"⟩]⟩ "module" =
      some "u2" :=
  ⟨by decide,
   by
     rw [(release_asset_selection "module"
       [⟨"foo-module.exe", "u1"⟩, ⟨"module-1.0.tgz", "u2"⟩] (by decide)).1]
     rfl⟩

/-- Claim C10: with the empty module name (as produced by a trailing or
doubled comma in the comma-separated module list), the name filter is
disabled and the Resolver returns the first asset whose name ends with an
accepted extension, regardless of its name. -/
theorem release_asset_empty_module_name :
    (∀ assets : List Asset, get_release_asset ⟨200, assets⟩ "" =
      (assets.find? fun a => hasAllowedExt (strToLower a.name)).map
        (fun a => a.browser_download_url)) ∧
    split_module_names "core," = ["core", ""] ∧
    get_release_asset ⟨200, [⟨"unrelated-name.zip", "u9"⟩]⟩ "" = some "u9" := by
  refine ⟨?_, rfl, rfl⟩
  intro assets
  have h1 : get_release_asset ⟨200, assets⟩ "" = scan_assets "" assets := by
    simp [get_release_asset]
  rw [h1, scan_assets_empty_eq_find assets]

/-- Claim C5: a release query that does not come back 200 (no releases, tag
not found) makes the Release Asset Resolver return `none` instead of
raising, and the module loop then runs the slow path (source download and
build) for that module. -/
theorem no_release_asset_falls_back (resp : ReleaseResponse) (m : String)
    (h : resp.status_code ≠ 200) (w : World) (v : Option String) (cwd : String)
    (hw : w.release = resp) :
    get_release_asset resp m = none ∧
    process_module w v cwd m = slow_path w v cwd m := by
  have h1 : get_release_asset resp m = none := by simp [get_release_asset, h]
  refine ⟨h1, ?_⟩
  simp [process_module, hw, h1]

/-- Witness for `no_release_asset_falls_back` in the concrete world `w1`
whose release query comes back 404. -/
theorem no_release_asset_falls_back_witness :
    (404 : Nat) ≠ 200 ∧
    get_release_asset ⟨404, []⟩ "good" = none ∧
    process_module w1 none "/cwd" "good" = slow_path w1 none "/cwd" "good" :=
  ⟨by decide,
   (no_release_asset_falls_back ⟨404, []⟩ "good" (by decide) w1 none "/cwd" rfl).1,
   (no_release_asset_falls_back ⟨404, []⟩ "good" (by decide) w1 none "/cwd" rfl).2⟩

/-- Claim C6: when the build tool exits 0 but the conventional output
directory holds no file with the expected extension (`.jar` for Maven,
`.tgz` for NPM), Builder Dispatch fails with the artifact-not-found
`FileNotFoundError`, whereas a non-zero build-tool exit raises
`CalledProcessError` — two distinct errors. -/
theorem build_artifact_error_distinct (envM envN : BuildEnv) (mp cwd : String)
    (hM0 : envM.mvnExit = 0)
    (hM1 : ∀ f ∈ envM.targetListing, strEndsWith f ".jar" = false)
    (hN0 : envN.npmInstallExit = 0) (hN1 : envN.npmPackExit = 0)
    (hN2 : ∀ f ∈ envN.moduleListing, strEndsWith f ".tgz" = false) :
    package_maven_module envM mp cwd =
      .error (.fileNotFoundError ("No JAR produced for module " ++ mp)) ∧
    package_npm_module envN cwd = .error (.fileNotFoundError "No .tgz produced in npm pack") ∧
    (∀ env : BuildEnv, env.mvnExit ≠ 0 →
        package_maven_module env mp cwd = .error (.calledProcessError "mvn")) ∧
    (∀ s c, Err.fileNotFoundError s ≠ Err.calledProcessError c) := by
  have hMf : envM.targetListing.filter (fun f => strEndsWith f ".jar") = [] := by
    rw [List.filter_eq_nil_iff]
    intro f hf
    simp [hM1 f hf]
  have hNf : envN.moduleListing.filter (fun f => strEndsWith f ".tgz") = [] := by
    rw [List.filter_eq_nil_iff]
    intro f hf
    simp [hN2 f hf]
  refine ⟨?_, ?_, ?_, ?_⟩
  · simp [package_maven_module, hM0, hMf]
  · simp [package_npm_module, hN0, hN1, hNf]
  · intro env henv
    simp [package_maven_module, henv]
  · intro s c hsc
    cases hsc

/-- Witness for `build_artifact_error_distinct`: successful builds whose
output directories contain no artifact of the expected extension. -/
theorem build_artifact_error_distinct_witness :
    package_maven_module ⟨0, ["notes.txt"], 0, 0, []⟩ "good" "/cwd" =
      .error (.fileNotFoundError "No JAR produced for module good") ∧
    package_npm_module ⟨0, [], 0, 0, ["README.md"]⟩ "/cwd" =
      .error (.fileNotFoundError "No .tgz produced in npm pack") :=
  ⟨(build_artifact_error_distinct ⟨0, ["notes.txt"], 0, 0, []⟩ ⟨0, [], 0, 0, ["README.md"]⟩
      "good" "/cwd" rfl (by decide) rfl rfl (by decide)).1,
   (build_artifact_error_distinct ⟨0, ["notes.txt"], 0, 0, []⟩ ⟨0, [], 0, 0, ["README.md"]⟩
      "good" "/cwd" rfl (by decide) rfl rfl (by decide)).2.1⟩

/-- Claim C7: the Module Locator scans the `os.walk` traversal top-down and
returns the module-named child of the first visited directory that has
one; it fails with the module-not-found `FileNotFoundError` exactly when
no directory named `module_name` exists anywhere in the tree
(`hasDirNamed` is defined by direct recursion on the tree, independently
of `walk`). -/
theorem find_module_first_match_or_error (p m : String) (t : DirTree) :
    (∀ e, (walk p t).find? (fun e => e.2.contains m) = some e →
        find_module_path p m t = .ok (pjoin e.1 m)) ∧
    ((find_module_path p m t =
        .error (.fileNotFoundError ("Module " ++ m ++ " not found in repo")))
      ↔ hasDirNamed m t = false) := by
  constructor
  · intro e he
    unfold find_module_path
    rw [he]
  · rw [← walk_any m p t]
    unfold find_module_path
    cases hf : (walk p t).find? (fun e => e.2.contains m) with
    | none =>
        rw [List.find?_eq_none] at hf
        have hany : ((walk p t).any fun e => e.2.contains m) = false :=
          List.any_eq_false.mpr hf
        exact ⟨fun _ => hany, fun _ => rfl⟩
    | some e =>
        have hp := List.find?_some hf
        have hmem := List.mem_of_find?_eq_some hf
        have hany : ((walk p t).any fun e => e.2.contains m) = true :=
          List.any_eq_true.mpr ⟨e, hmem, hp⟩
        exact ⟨fun hcontra => Except.noConfusion hcontra,
               fun hfalse => Bool.noConfusion (hany.symm.trans hfalse)⟩

/-- Witness for `find_module_first_match_or_error` on `demoTree`: `core` is
found as a child of the root, `nomatch` raises. -/
theorem find_module_first_match_or_error_witness :
    find_module_path "r" "core" demoTree = .ok "r/core" ∧
    find_module_path "r" "nomatch" demoTree =
      .error (.fileNotFoundError "Module nomatch not found in repo") :=
  ⟨(find_module_first_match_or_error "r" "core" demoTree).1
      ("r", ["docs", "core"]) rfl,
   (find_module_first_match_or_error "r" "nomatch" demoTree).2.mpr rfl⟩

/-- Claim C8: with the archive served successfully, the Source Archive
Fetcher returns the path of the single top-level directory the archive
expands into, and it fails — with the `IndexError` that realizes the
spec's `ArchiveError` — when extraction yields zero top-level entries. -/
theorem download_source_root_entry (w : ArchiveFetch) (h : w.status_code < 400) :
    (∀ d, w.entries = [d] → download_source w = .ok (pjoin (pjoin tmpDir "src") d)) ∧
    (w.entries = [] → download_source w = .error .indexError) := by
  have hh : ¬ 400 ≤ w.status_code := by omega
  constructor
  · intro d hd
    simp [download_source, hh, hd]
  · intro hd
    simp [download_source, hh, hd]

/-- Witness for `download_source_root_entry` at concrete fetches. -/
theorem download_source_root_entry_witness :
    (200 : Nat) < 400 ∧
    download_source ⟨200, ["acme-widgets-0abc"]⟩ =
      .ok "/tmp/scratch/src/acme-widgets-0abc" ∧
    download_source ⟨200, []⟩ = .error .indexError :=
  ⟨by decide,
   (download_source_root_entry ⟨200, ["acme-widgets-0abc"]⟩ (by decide)).1 _ rfl,
   (download_source_root_entry ⟨200, []⟩ (by decide)).2 rfl⟩

/-- Counterexample to claim C1: in the world `w1` (no release assets, the
source tree has a directory `good` but none named `bad`), processing the
module list `["bad", "good"]` aborts the whole run with the `bad`
module's error, even though processing `good` alone would succeed; the
full entry point shows the same. -/
theorem module_error_aborts_batch :
    processList w1 none "/cwd" ["bad", "good"] =
      .error (.fileNotFoundError "Module bad not found in repo") ∧
    process_module w1 none "/cwd" "good" = .ok (.built "/cwd/good-1.0.0.jar") ∧
    mainModel w1 "/cwd" ["Package.py", "https://github.com/acme/widgets", "bad,good"] =
      .error (.fileNotFoundError "Module bad not found in repo") :=
  ⟨rfl, rfl, rfl⟩

/-- Claim C1 (amended): an error raised while processing one module
propagates out of the unprotected loop and aborts the whole run (later
modules are not processed), and an invalid top-level repository URL
aborts before any module is processed. -/
theorem module_error_propagates_and_bad_url_aborts (w : World) (v : Option String)
    (cwd m : String) (ms : List String) (e : Err)
    (h : process_module w v cwd m = .error e)
    (url mods : String) (u : Err) (hu : parse_github_url url = .error u) :
    processList w v cwd (m :: ms) = .error e ∧
    mainModel w cwd ["Package.py", url, mods] = .error u := by
  constructor
  · simp only [processList, h]
    rfl
  · simp [mainModel, hu]
    rfl

/-- Witness for `module_error_propagates_and_bad_url_aborts` in the world
`w1`, with the failing module `bad` and a one-segment URL. -/
theorem module_error_propagates_witness :
    process_module w1 none "/cwd" "bad" =
      .error (.fileNotFoundError "Module bad not found in repo") ∧
    parse_github_url "https://github.com" = .error (.valueError "Invalid GitHub URL") ∧
    processList w1 none "/cwd" ["bad", "good"] =
      .error (.fileNotFoundError "Module bad not found in repo") ∧
    mainModel w1 "/cwd" ["Package.py", "https://github.com", "bad,good"] =
      .error (.valueError "Invalid GitHub URL") :=
  ⟨rfl, rfl,
   (module_error_propagates_and_bad_url_aborts w1 none "/cwd" "bad" ["good"] _ rfl
      "https://github.com" "bad,good" _ rfl).1,
   (module_error_propagates_and_bad_url_aborts w1 none "/cwd" "bad" ["good"] _ rfl
      "https://github.com" "bad,good" _ rfl).2⟩
